import Mathlib

/-
  Shallow embedding of the File Manager (FM) command utility functions
  (fsw/src/fm_cmd_utils.c) together with the parts of the surrounding
  OS/cFE environment they consult.  Buffers are lists of characters read
  through `bufGet` (reads past the modelled storage return a fixed
  non-NUL filler, so they never fake a terminator); machine counters that
  can plausibly wrap (the uint8 child-queue fields) carry an explicit
  `% 256`.  Event reporting is modelled by the list of event identifiers
  sent, in order (identifier = caller base + fixed offset).
-/

namespace FM

/-- The C string terminator character NUL. -/
def nulChar : Char := Char.ofNat 0

/-- Read one cell of a character buffer; indices beyond the modelled
storage yield a fixed non-NUL filler character. -/
def bufGet (buf : List Char) (i : Nat) : Char := buf.getD i 'A'

/-- The terminator scan of FM_GetFilenameState (fm_cmd_utils.c:192-198):
starting at index `i` with `fuel` cells left before `BufferSize`, return
the index of the first NUL, or the index one past the last scanned cell
when no NUL occurs. -/
def stringLengthAux (buf : List Char) : Nat → Nat → Nat
  | i, 0 => i
  | i, fuel + 1 => if bufGet buf i = nulChar then i else stringLengthAux buf (i + 1) fuel

/-- Result of the `for` loop of fm_cmd_utils.c:192-198: the offset of the
first NUL below `size`, or `size` itself when the buffer holds none. -/
def stringLength (buf : List Char) (size : Nat) : Nat := stringLengthAux buf 0 size

/-- The character sequence a C callee sees when handed the buffer as a
`char *`: everything up to the first NUL. -/
def cstr (buf : List Char) : List Char := buf.takeWhile (fun c => c != nulChar)

/-- C `strlen` on the modelled buffer (used by FM_AppendPathSep, whose
contract guarantees a terminator is present). -/
def strlen : List Char → Nat
  | [] => 0
  | c :: cs => if c = nulChar then 0 else strlen cs + 1

/-- Metadata returned by a successful OS_stat query. -/
structure OsStat where
  isDir : Bool
  mtime : Nat
  fsize : Nat
deriving DecidableEq

/-- Result of OS_FDGetInfo on a stream handle: its path and owning task. -/
structure FdProp where
  path : List Char
  user : Nat
deriving DecidableEq

/-- One live OS object as seen by OS_ForEachObject: whether
OS_IdentifyObject reports it as a stream, and the OS_FDGetInfo outcome
(`none` models a failed query). -/
structure OsObject where
  isStream : Bool
  fdProp : Option FdProp
deriving DecidableEq

/-- The external collaborators consulted by fm_cmd_utils.c:
CFS_IsValidFilename, OS_stat (applied to the C string of the buffer),
the OS object table walked by OS_ForEachObject, and CFE_ES_GetTaskInfo
(`none` models a failed lookup). -/
structure Env where
  isValidFilename : List Char → Nat → Bool
  stat : List Char → Option OsStat
  objects : List OsObject
  taskAppName : Nat → Option (List Char)

/-- The stat side-channel slots of FM_GlobalData touched by
FM_GetFilenameState (FileStatTime, FileStatSize). -/
structure Globals where
  fileStatTime : Nat
  fileStatSize : Nat
deriving DecidableEq

/-- Modelled from the spec: the FilenameState value `Invalid` of the
five-state enum of section 3 (the header defining FM_NAME_IS_INVALID is
not among the provided sources; only distinctness of the five values is
used). -/
def FM_NAME_IS_INVALID : Nat := 0

/-- Modelled from the spec: the FilenameState value `NotInUse`. -/
def FM_NAME_IS_NOT_IN_USE : Nat := 1

/-- Modelled from the spec: the FilenameState value `FileOpen`. -/
def FM_NAME_IS_FILE_OPEN : Nat := 2

/-- Modelled from the spec: the FilenameState value `FileClosed`. -/
def FM_NAME_IS_FILE_CLOSED : Nat := 3

/-- Modelled from the spec: the FilenameState value `Directory`. -/
def FM_NAME_IS_DIRECTORY : Nat := 4

/-- Modelled from the spec: event-id offset for `filename is invalid`,
pinned to +0 by every row of the section 4.4 table (fm_events.h is not
among the provided sources). -/
def FM_FNAME_INVALID_EID_OFFSET : Nat := 0

/-- Modelled from the spec: event-id offset for `does not exist`, pinned
to +1 by the FileExists, FileClosedOnly, DirectoryExists and
DirectoryAbsent rows of the section 4.4 table. -/
def FM_FNAME_DNE_EID_OFFSET : Nat := 1

/-- Modelled from the spec: event-id offset for `file is open`, pinned to
+2 by the FileClosedOnly and FileNotOpen rows of the section 4.4 table. -/
def FM_FNAME_ISOPEN_EID_OFFSET : Nat := 2

/-- Modelled from the spec: event-id offset for `name is a directory`,
pinned to +3 by the FileExists, FileClosedOnly, FileAbsent and
FileNotOpen rows of the section 4.4 table and the section 8 scenario
`directory path passed to FileClosedOnly fails with offset +3`. -/
def FM_FNAME_ISDIR_EID_OFFSET : Nat := 3

/-- Modelled from the spec: event-id offset for `file already exists`,
pinned to +4 by the FileAbsent row of the section 4.4 table. -/
def FM_FNAME_EXIST_EID_OFFSET : Nat := 4

/-- Modelled from the spec: event-id offset for `name exists as a file`,
pinned to +5 by the DirectoryExists row of the section 4.4 table. -/
def FM_FNAME_ISFILE_EID_OFFSET : Nat := 5

/-- Modelled from the spec: the dedicated `unknown state` offset of
section 4.4; its numeric value is not pinned by the spec, only its
distinctness from the table offsets. -/
def FM_FNAME_UNKNOWN_EID_OFFSET : Nat := 6

/-- Modelled from the spec: the `disabled` diagnostic offset of section
4.5; value distinct from the other offsets, otherwise arbitrary. -/
def FM_CHILD_DISABLED_EID_OFFSET : Nat := 7

/-- Modelled from the spec: the `full` diagnostic offset of section 4.5;
value distinct from the other offsets, otherwise arbitrary. -/
def FM_CHILD_Q_FULL_EID_OFFSET : Nat := 8

/-- Modelled from the spec: the `broken` diagnostic offset of section
4.5; value distinct from the other offsets, otherwise arbitrary. -/
def FM_CHILD_BROKEN_EID_OFFSET : Nat := 9

/-- FM_GetFilenameState (fm_cmd_utils.c:183-271).  Scans for a
terminator, validates the name, stats the path, and distinguishes
directory / file / absent.  The open-file search of lines 230-232
(OS_ForEachObject with SearchOpenFileData) is commented out in the
source (nos3 issue 118), so FileIsOpen remains FALSE and an existing
regular file is always classified FM_NAME_IS_FILE_CLOSED.  Returns the
state together with the updated stat side-channel. -/
def FM_GetFilenameState (env : Env) (buf : List Char) (size : Nat)
    (fileInfoCmd : Bool) (g : Globals) : Nat × Globals :=
  let stringLen := stringLength buf size
  let filenameIsValid : Bool :=
    if 0 < stringLen ∧ stringLen < size then env.isValidFilename buf stringLen else false
  if filenameIsValid then
    match env.stat (cstr buf) with
    | some fileStatus =>
      let state :=
        if fileStatus.isDir then FM_NAME_IS_DIRECTORY
        else
          -- lines 226-237: FileIsOpen is reset to FALSE and the search is
          -- disabled, so the FM_NAME_IS_FILE_OPEN branch is unreachable
          let fileIsOpen := false
          if fileIsOpen then FM_NAME_IS_FILE_OPEN else FM_NAME_IS_FILE_CLOSED
      let g' :=
        if fileInfoCmd then
          { fileStatTime := fileStatus.mtime, fileStatSize := fileStatus.fsize }
        else g
      (state, g')
    | none =>
      let g' := if fileInfoCmd then { fileStatTime := 0, fileStatSize := 0 } else g
      (FM_NAME_IS_NOT_IN_USE, g')
  else (FM_NAME_IS_INVALID, g)

/-- Outcome of one verification check: the boolean result, the event
identifiers sent (in order), the buffer contents after the call (the
checks overwrite the last cell on the invalid path), and the stat
side-channel after the call. -/
structure CheckResult where
  result : Bool
  events : List Nat
  buf : List Char
  g : Globals
deriving DecidableEq

/-- FM_VerifyFileClosed (fm_cmd_utils.c:306-349). -/
def FM_VerifyFileClosed (env : Env) (buf : List Char) (size : Nat)
    (eventID : Nat) (g : Globals) : CheckResult :=
  let p := FM_GetFilenameState env buf size false g
  if p.1 = FM_NAME_IS_INVALID then
    ⟨false, [eventID + FM_FNAME_INVALID_EID_OFFSET], buf.set (size - 1) nulChar, p.2⟩
  else if p.1 = FM_NAME_IS_NOT_IN_USE then
    ⟨false, [eventID + FM_FNAME_DNE_EID_OFFSET], buf, p.2⟩
  else if p.1 = FM_NAME_IS_FILE_OPEN then
    ⟨false, [eventID + FM_FNAME_ISOPEN_EID_OFFSET], buf, p.2⟩
  else if p.1 = FM_NAME_IS_FILE_CLOSED then
    ⟨true, [], buf, p.2⟩
  else if p.1 = FM_NAME_IS_DIRECTORY then
    ⟨false, [eventID + FM_FNAME_ISDIR_EID_OFFSET], buf, p.2⟩
  else
    ⟨false, [eventID + FM_FNAME_UNKNOWN_EID_OFFSET], buf, p.2⟩

/-- FM_VerifyFileExists (fm_cmd_utils.c:358-397). -/
def FM_VerifyFileExists (env : Env) (buf : List Char) (size : Nat)
    (eventID : Nat) (g : Globals) : CheckResult :=
  let p := FM_GetFilenameState env buf size false g
  if p.1 = FM_NAME_IS_INVALID then
    ⟨false, [eventID + FM_FNAME_INVALID_EID_OFFSET], buf.set (size - 1) nulChar, p.2⟩
  else if p.1 = FM_NAME_IS_NOT_IN_USE then
    ⟨false, [eventID + FM_FNAME_DNE_EID_OFFSET], buf, p.2⟩
  else if p.1 = FM_NAME_IS_FILE_OPEN ∨ p.1 = FM_NAME_IS_FILE_CLOSED then
    ⟨true, [], buf, p.2⟩
  else if p.1 = FM_NAME_IS_DIRECTORY then
    ⟨false, [eventID + FM_FNAME_ISDIR_EID_OFFSET], buf, p.2⟩
  else
    ⟨false, [eventID + FM_FNAME_UNKNOWN_EID_OFFSET], buf, p.2⟩

/-- FM_VerifyFileNoExist (fm_cmd_utils.c:406-445). -/
def FM_VerifyFileNoExist (env : Env) (buf : List Char) (size : Nat)
    (eventID : Nat) (g : Globals) : CheckResult :=
  let p := FM_GetFilenameState env buf size false g
  if p.1 = FM_NAME_IS_INVALID then
    ⟨false, [eventID + FM_FNAME_INVALID_EID_OFFSET], buf.set (size - 1) nulChar, p.2⟩
  else if p.1 = FM_NAME_IS_NOT_IN_USE then
    ⟨true, [], buf, p.2⟩
  else if p.1 = FM_NAME_IS_FILE_OPEN ∨ p.1 = FM_NAME_IS_FILE_CLOSED then
    ⟨false, [eventID + FM_FNAME_EXIST_EID_OFFSET], buf, p.2⟩
  else if p.1 = FM_NAME_IS_DIRECTORY then
    ⟨false, [eventID + FM_FNAME_ISDIR_EID_OFFSET], buf, p.2⟩
  else
    ⟨false, [eventID + FM_FNAME_UNKNOWN_EID_OFFSET], buf, p.2⟩

/-- FM_VerifyFileNotOpen (fm_cmd_utils.c:454-498). -/
def FM_VerifyFileNotOpen (env : Env) (buf : List Char) (size : Nat)
    (eventID : Nat) (g : Globals) : CheckResult :=
  let p := FM_GetFilenameState env buf size false g
  if p.1 = FM_NAME_IS_INVALID then
    ⟨false, [eventID + FM_FNAME_INVALID_EID_OFFSET], buf.set (size - 1) nulChar, p.2⟩
  else if p.1 = FM_NAME_IS_NOT_IN_USE then
    ⟨true, [], buf, p.2⟩
  else if p.1 = FM_NAME_IS_FILE_OPEN then
    ⟨false, [eventID + FM_FNAME_ISOPEN_EID_OFFSET], buf, p.2⟩
  else if p.1 = FM_NAME_IS_FILE_CLOSED then
    ⟨true, [], buf, p.2⟩
  else if p.1 = FM_NAME_IS_DIRECTORY then
    ⟨false, [eventID + FM_FNAME_ISDIR_EID_OFFSET], buf, p.2⟩
  else
    ⟨false, [eventID + FM_FNAME_UNKNOWN_EID_OFFSET], buf, p.2⟩

/-- FM_VerifyDirExists (fm_cmd_utils.c:507-548). -/
def FM_VerifyDirExists (env : Env) (buf : List Char) (size : Nat)
    (eventID : Nat) (g : Globals) : CheckResult :=
  let p := FM_GetFilenameState env buf size false g
  if p.1 = FM_NAME_IS_INVALID then
    ⟨false, [eventID + FM_FNAME_INVALID_EID_OFFSET], buf.set (size - 1) nulChar, p.2⟩
  else if p.1 = FM_NAME_IS_NOT_IN_USE then
    ⟨false, [eventID + FM_FNAME_DNE_EID_OFFSET], buf, p.2⟩
  else if p.1 = FM_NAME_IS_FILE_OPEN ∨ p.1 = FM_NAME_IS_FILE_CLOSED then
    ⟨false, [eventID + FM_FNAME_ISFILE_EID_OFFSET], buf, p.2⟩
  else if p.1 = FM_NAME_IS_DIRECTORY then
    ⟨true, [], buf, p.2⟩
  else
    ⟨false, [eventID + FM_FNAME_UNKNOWN_EID_OFFSET], buf, p.2⟩

/-- FM_VerifyDirNoExist (fm_cmd_utils.c:557-596). -/
def FM_VerifyDirNoExist (env : Env) (buf : List Char) (size : Nat)
    (eventID : Nat) (g : Globals) : CheckResult :=
  let p := FM_GetFilenameState env buf size false g
  if p.1 = FM_NAME_IS_INVALID then
    ⟨false, [eventID + FM_FNAME_INVALID_EID_OFFSET], buf.set (size - 1) nulChar, p.2⟩
  else if p.1 = FM_NAME_IS_NOT_IN_USE then
    ⟨true, [], buf, p.2⟩
  else if p.1 = FM_NAME_IS_FILE_OPEN ∨ p.1 = FM_NAME_IS_FILE_CLOSED then
    ⟨false, [eventID + FM_FNAME_DNE_EID_OFFSET], buf, p.2⟩
  else if p.1 = FM_NAME_IS_DIRECTORY then
    ⟨false, [eventID + FM_FNAME_ISDIR_EID_OFFSET], buf, p.2⟩
  else
    ⟨false, [eventID + FM_FNAME_UNKNOWN_EID_OFFSET], buf, p.2⟩

/-- Modelled from the spec: the distinguished `worker absent` value of
the child-task semaphore handle (FM_CHILD_SEM_INVALID comes from a
header not among the provided sources; only equality with it is used). -/
def FM_CHILD_SEM_INVALID : Nat := 0

/-- The child-task interface fields of FM_GlobalData used by
FM_VerifyChildTask and FM_InvokeChildTask.  ChildQueueCount and
ChildWriteIndex are uint8 in the source, so their updates carry `% 256`;
queue entries are opaque payloads, zero-filled before reuse. -/
structure ChildState where
  childSemaphore : Nat
  childQueueCount : Nat
  childWriteIndex : Nat
  childQueue : List Nat
deriving DecidableEq

/-- FM_VerifyChildTask (fm_cmd_utils.c:605-650), with the compile-time
FM_CHILD_QUEUE_DEPTH passed as `q`.  Returns the boolean result, the
event identifiers sent, and the state after the call (the success branch
zero-fills the slot at ChildWriteIndex). -/
def FM_VerifyChildTask (q : Nat) (eventID : Nat) (st : ChildState) :
    Bool × List Nat × ChildState :=
  let localQueueCount := st.childQueueCount
  if st.childSemaphore = FM_CHILD_SEM_INVALID then
    (false, [eventID + FM_CHILD_DISABLED_EID_OFFSET], st)
  else if localQueueCount = q then
    (false, [eventID + FM_CHILD_Q_FULL_EID_OFFSET], st)
  else if localQueueCount > q ∨ st.childWriteIndex ≥ q then
    (false, [eventID + FM_CHILD_BROKEN_EID_OFFSET], st)
  else
    (true, [], { st with childQueue := st.childQueue.set st.childWriteIndex 0 })

/-- FM_InvokeChildTask (fm_cmd_utils.c:659-683): advance ChildWriteIndex
(uint8 increment, then wrap to 0 at FM_CHILD_QUEUE_DEPTH) and increment
ChildQueueCount (uint8). -/
def FM_InvokeChildTask (q : Nat) (st : ChildState) : ChildState :=
  let wi := (st.childWriteIndex + 1) % 256
  let wi := if wi ≥ q then 0 else wi
  { st with
    childWriteIndex := wi
    childQueueCount := (st.childQueueCount + 1) % 256 }

/-- The producer protocol of one enqueue attempt: FM_VerifyChildTask
first, FM_InvokeChildTask only on a TRUE verify result. -/
def enqueueAttempt (q : Nat) (eventID : Nat) (st : ChildState) :
    Bool × List Nat × ChildState :=
  match FM_VerifyChildTask q eventID st with
  | (true, evs, st') => (true, evs, FM_InvokeChildTask q st')
  | (false, evs, st') => (false, evs, st')

/-- State after `n` successive enqueue attempts under the producer
protocol, with no intervening dequeue. -/
def runAttempts (q : Nat) (eventID : Nat) (st : ChildState) : Nat → ChildState
  | 0 => st
  | n + 1 => (enqueueAttempt q eventID (runAttempts q eventID st n)).2.2

/-- FM_AppendPathSep (fm_cmd_utils.c:692-715): append a trailing slash
when the string does not already end with one and the buffer still has
room for it plus the terminator (strncat writes the slash at the old
terminator position and a new terminator one past it). -/
def FM_AppendPathSep (buf : List Char) (size : Nat) : List Char :=
  let stringLen := strlen buf
  if bufGet buf (stringLen - 1) ≠ '/' then
    if stringLen < size - 1 then
      (buf.set stringLen '/').set (stringLen + 1) nulChar
    else buf
  else buf

/-- One record written by LoadOpenFileData: the logical name copied from
the handle, and the owning application name when CFE_ES_GetTaskInfo
succeeds (the field is left unset on failure). -/
structure OpenFilesEntry where
  logicalName : List Char
  appName : Option (List Char)
deriving DecidableEq

/-- LoadOpenFileData (fm_cmd_utils.c:105-136) acting on one enumerated
object: every stream handle bumps OpenFileCount; a record is written at
the pre-increment index only when the output pointer is non-NULL
(`nullArg = false`) and OS_FDGetInfo succeeds.  The uint32 counter
cannot wrap over one pass of the bounded OS object table, so it is
carried as a plain count. -/
def LoadOpenFileData (env : Env) (nullArg : Bool) (obj : OsObject)
    (acc : Nat × List (Nat × OpenFilesEntry)) : Nat × List (Nat × OpenFilesEntry) :=
  if obj.isStream then
    let writes :=
      if nullArg then acc.2
      else
        match obj.fdProp with
        | some fd => acc.2 ++ [(acc.1, ⟨fd.path, env.taskAppName fd.user⟩)]
        | none => acc.2
    (acc.1 + 1, writes)
  else acc

/-- FM_GetOpenFilesData (fm_cmd_utils.c:138-146): reset OpenFileCount
and run LoadOpenFileData over every live OS object, returning the count
together with the log of records written (index, record). -/
def FM_GetOpenFilesData (env : Env) (nullArg : Bool) : Nat × List (Nat × OpenFilesEntry) :=
  env.objects.foldl (fun acc obj => LoadOpenFileData env nullArg obj acc) (0, [])

/-- The classified state of a path, read off the classifier (the state
component does not depend on the stat-capture flag or on the incoming
side-channel contents). -/
def fmState (env : Env) (buf : List Char) (size : Nat) : Nat :=
  (FM_GetFilenameState env buf size false ⟨0, 0⟩).1

/-- A concrete buffer holding the terminated path `/f`. -/
def bufOpen : List Char := ['/', 'f', Char.ofNat 0]

/-- Concrete metadata of `/f`: a regular (non-directory) file. -/
def statOpen : OsStat := ⟨false, 5, 7⟩

/-- A concrete environment in which `/f` exists as a regular file and one
live stream handle holds exactly that path. -/
def envOpen : Env :=
  { isValidFilename := fun _ _ => true
    stat := fun p => if p = cstr bufOpen then some statOpen else none
    objects := [⟨true, some ⟨cstr bufOpen, 1⟩⟩]
    taskAppName := fun _ => none }

/-- A concrete buffer holding the terminated path `/ram/foo.dat`. -/
def bufAbsent : List Char :=
  ['/', 'r', 'a', 'm', '/', 'f', 'o', 'o', '.', 'd', 'a', 't', Char.ofNat 0]

/-- A concrete environment whose filesystem is empty: every stat fails. -/
def envAbsent : Env :=
  { isValidFilename := fun _ _ => true
    stat := fun _ => none
    objects := []
    taskAppName := fun _ => none }

/-- A concrete buffer holding the terminated path `/d`. -/
def bufDir : List Char := ['/', 'd', Char.ofNat 0]

/-- Concrete metadata of `/d`: a directory. -/
def statDir : OsStat := ⟨true, 0, 0⟩

/-- A concrete environment in which `/d` exists as a directory. -/
def envDir : Env :=
  { isValidFilename := fun _ _ => true
    stat := fun p => if p = cstr bufDir then some statDir else none
    objects := []
    taskAppName := fun _ => none }

/-- A concrete unterminated buffer: four characters, no NUL. -/
def bufInvalid : List Char := ['a', 'b', 'c', 'd']

/-- A concrete environment holding a single stream handle whose
OS_FDGetInfo query fails. -/
def envFdFail : Env :=
  { isValidFilename := fun _ _ => true
    stat := fun _ => none
    objects := [⟨true, none⟩]
    taskAppName := fun _ => none }

/-- A concrete terminated directory buffer `/a` with spare room. -/
def bufSep : List Char := ['/', 'a', Char.ofNat 0, 'x']

lemma fmGetFilenameState_fst (env : Env) (buf : List Char) (size : Nat)
    (c : Bool) (g : Globals) :
    (FM_GetFilenameState env buf size c g).1 = fmState env buf size := by
  simp only [fmState, FM_GetFilenameState]
  rcases h : env.stat (cstr buf) with _ | st <;> simp only [h] <;> split_ifs <;> simp_all

lemma fmGetFilenameState_snd_false (env : Env) (buf : List Char) (size : Nat)
    (g : Globals) : (FM_GetFilenameState env buf size false g).2 = g := by
  simp only [FM_GetFilenameState]
  rcases h : env.stat (cstr buf) with _ | st <;> simp only [h] <;> split_ifs <;> simp_all

lemma fmState_cases (env : Env) (buf : List Char) (size : Nat) :
    fmState env buf size = FM_NAME_IS_INVALID ∨
    fmState env buf size = FM_NAME_IS_NOT_IN_USE ∨
    fmState env buf size = FM_NAME_IS_FILE_CLOSED ∨
    fmState env buf size = FM_NAME_IS_DIRECTORY := by
  simp only [fmState, FM_GetFilenameState]
  rcases h : env.stat (cstr buf) with _ | st <;> simp only [h] <;> split_ifs <;>
    simp_all [FM_NAME_IS_INVALID, FM_NAME_IS_NOT_IN_USE, FM_NAME_IS_FILE_OPEN,
      FM_NAME_IS_FILE_CLOSED, FM_NAME_IS_DIRECTORY]

/-- C8: FM_GetFilenameState writes the stat side-channel (FileStatTime,
FileStatSize) only when FileInfoCmd is TRUE; every call with FileInfoCmd
FALSE — in particular every call made by the six verification checks —
leaves both fields unchanged. -/
theorem statSideChannel_frame_c8 (env : Env) (buf : List Char) (size : Nat)
    (e : Nat) (g : Globals) :
    (FM_GetFilenameState env buf size false g).2 = g ∧
    (FM_VerifyFileClosed env buf size e g).g = g ∧
    (FM_VerifyFileExists env buf size e g).g = g ∧
    (FM_VerifyFileNoExist env buf size e g).g = g ∧
    (FM_VerifyFileNotOpen env buf size e g).g = g ∧
    (FM_VerifyDirExists env buf size e g).g = g ∧
    (FM_VerifyDirNoExist env buf size e g).g = g := by
  refine ⟨fmGetFilenameState_snd_false env buf size g, ?_, ?_, ?_, ?_, ?_, ?_⟩ <;>
  · simp only [FM_VerifyFileClosed, FM_VerifyFileExists, FM_VerifyFileNoExist,
      FM_VerifyFileNotOpen, FM_VerifyDirExists, FM_VerifyDirNoExist,
      fmGetFilenameState_snd_false]
    split_ifs <;> rfl

/-- C4: whenever the child-task semaphore equals FM_CHILD_SEM_INVALID,
FM_VerifyChildTask returns FALSE with exactly one `disabled` diagnostic
(base + FM_CHILD_DISABLED_EID_OFFSET) and leaves the queue state
(ChildQueueCount, ChildWriteIndex, queue slots) unchanged. -/
theorem childDisabled_c4 (q e : Nat) (st : ChildState)
    (h : st.childSemaphore = FM_CHILD_SEM_INVALID) :
    FM_VerifyChildTask q e st = (false, [e + FM_CHILD_DISABLED_EID_OFFSET], st) := by
  simp [FM_VerifyChildTask, h]

/-- Witness for C4 at a concrete disabled state. -/
theorem childDisabled_c4_witness :
    (⟨0, 0, 0, [0, 0, 0]⟩ : ChildState).childSemaphore = FM_CHILD_SEM_INVALID ∧
    FM_VerifyChildTask 3 50 ⟨0, 0, 0, [0, 0, 0]⟩ =
      (false, [50 + FM_CHILD_DISABLED_EID_OFFSET], ⟨0, 0, 0, [0, 0, 0]⟩) :=
  ⟨by decide, childDisabled_c4 3 50 ⟨0, 0, 0, [0, 0, 0]⟩ (by decide)⟩

/-- C2 counterexample: with `/f` existing as a regular file and a live
stream handle holding exactly that path, FM_GetFilenameState still
returns FM_NAME_IS_FILE_CLOSED, not FM_NAME_IS_FILE_OPEN — the
open-handle search of fm_cmd_utils.c:232 is commented out. -/
theorem openHandleIgnored_c2_cex :
    envOpen.objects = [⟨true, some ⟨cstr bufOpen, 1⟩⟩] ∧
    envOpen.stat (cstr bufOpen) = some statOpen ∧
    statOpen.isDir = false ∧
    (FM_GetFilenameState envOpen bufOpen 3 false ⟨0, 0⟩).1 = FM_NAME_IS_FILE_CLOSED ∧
    FM_NAME_IS_FILE_CLOSED ≠ FM_NAME_IS_FILE_OPEN := by
  refine ⟨rfl, by decide, by decide, by decide, by decide⟩

/-- C2 amended: for every path that names an existing regular
(non-directory) filesystem object, FM_GetFilenameState returns
FM_NAME_IS_FILE_CLOSED regardless of the live OS stream handles (the
open-file search is disabled in the source per nos3 issue 118). -/
theorem regularFileAlwaysClosed_c2 (env : Env) (buf : List Char) (size : Nat)
    (c : Bool) (g : Globals) (stt : OsStat)
    (h1 : 0 < stringLength buf size)
    (h2 : stringLength buf size < size)
    (h3 : env.isValidFilename buf (stringLength buf size) = true)
    (h4 : env.stat (cstr buf) = some stt)
    (h5 : stt.isDir = false) :
    (FM_GetFilenameState env buf size c g).1 = FM_NAME_IS_FILE_CLOSED := by
  simp [FM_GetFilenameState, h1, h2, h3, h4, h5]

/-- Witness for the amended C2 at the concrete open-file environment. -/
theorem regularFileAlwaysClosed_c2_witness :
    0 < stringLength bufOpen 3 ∧ stringLength bufOpen 3 < 3 ∧
    envOpen.isValidFilename bufOpen (stringLength bufOpen 3) = true ∧
    envOpen.stat (cstr bufOpen) = some statOpen ∧
    statOpen.isDir = false ∧
    (FM_GetFilenameState envOpen bufOpen 3 false ⟨0, 0⟩).1 = FM_NAME_IS_FILE_CLOSED :=
  ⟨by decide, by decide, by decide, by decide, by decide,
    regularFileAlwaysClosed_c2 envOpen bufOpen 3 false ⟨0, 0⟩ statOpen
      (by decide) (by decide) (by decide) (by decide) (by decide)⟩

/-- C7: a valid, terminated path absent from the filesystem (OS_stat
fails) classifies FM_NAME_IS_NOT_IN_USE; FM_VerifyFileNoExist returns
TRUE with no diagnostic; FM_VerifyFileExists returns FALSE emitting
exactly one diagnostic at base + FM_FNAME_DNE_EID_OFFSET. -/
theorem absentPath_c7 (env : Env) (buf : List Char) (size : Nat) (e : Nat) (g : Globals)
    (h1 : 0 < stringLength buf size)
    (h2 : stringLength buf size < size)
    (h3 : env.isValidFilename buf (stringLength buf size) = true)
    (h4 : env.stat (cstr buf) = none) :
    fmState env buf size = FM_NAME_IS_NOT_IN_USE ∧
    FM_VerifyFileNoExist env buf size e g = ⟨true, [], buf, g⟩ ∧
    (FM_VerifyFileExists env buf size e g).result = false ∧
    (FM_VerifyFileExists env buf size e g).events = [e + FM_FNAME_DNE_EID_OFFSET] := by
  have hs : fmState env buf size = FM_NAME_IS_NOT_IN_USE := by
    simp [fmState, FM_GetFilenameState, h1, h2, h3, h4]
  refine ⟨hs, ?_, ?_, ?_⟩ <;>
    simp [FM_VerifyFileNoExist, FM_VerifyFileExists, fmGetFilenameState_fst,
      fmGetFilenameState_snd_false, hs, FM_NAME_IS_NOT_IN_USE, FM_NAME_IS_INVALID]

/-- Witness for C7 at the concrete absent path. -/
theorem absentPath_c7_witness :
    0 < stringLength bufAbsent 13 ∧ stringLength bufAbsent 13 < 13 ∧
    envAbsent.isValidFilename bufAbsent (stringLength bufAbsent 13) = true ∧
    envAbsent.stat (cstr bufAbsent) = none ∧
    (fmState envAbsent bufAbsent 13 = FM_NAME_IS_NOT_IN_USE ∧
      FM_VerifyFileNoExist envAbsent bufAbsent 13 30 ⟨0, 0⟩ = ⟨true, [], bufAbsent, ⟨0, 0⟩⟩ ∧
      (FM_VerifyFileExists envAbsent bufAbsent 13 30 ⟨0, 0⟩).result = false ∧
      (FM_VerifyFileExists envAbsent bufAbsent 13 30 ⟨0, 0⟩).events =
        [30 + FM_FNAME_DNE_EID_OFFSET]) :=
  ⟨by decide, by decide, by decide, by decide,
    absentPath_c7 envAbsent bufAbsent 13 30 ⟨0, 0⟩
      (by decide) (by decide) (by decide) (by decide)⟩

/-- C1: for every path the classified FilenameState is one of the five
defined states; each of the six verification checks returns pass exactly
on its table's pass states (FileExists on FileOpen/FileClosed,
FileClosedOnly on FileClosed, FileAbsent on NotInUse, FileNotOpen on
NotInUse/FileClosed, DirectoryExists on Directory, DirectoryAbsent on
NotInUse); and for every (state, check) pair exactly one outcome row
fires: no diagnostic on pass, exactly one diagnostic on fail. -/
theorem gatePartition_c1 (env : Env) (buf : List Char) (size : Nat)
    (e : Nat) (g : Globals) :
    (fmState env buf size = FM_NAME_IS_INVALID ∨
     fmState env buf size = FM_NAME_IS_NOT_IN_USE ∨
     fmState env buf size = FM_NAME_IS_FILE_OPEN ∨
     fmState env buf size = FM_NAME_IS_FILE_CLOSED ∨
     fmState env buf size = FM_NAME_IS_DIRECTORY) ∧
    ((FM_VerifyFileExists env buf size e g).result = true ↔
      (fmState env buf size = FM_NAME_IS_FILE_OPEN ∨
       fmState env buf size = FM_NAME_IS_FILE_CLOSED)) ∧
    ((FM_VerifyFileClosed env buf size e g).result = true ↔
      fmState env buf size = FM_NAME_IS_FILE_CLOSED) ∧
    ((FM_VerifyFileNoExist env buf size e g).result = true ↔
      fmState env buf size = FM_NAME_IS_NOT_IN_USE) ∧
    ((FM_VerifyFileNotOpen env buf size e g).result = true ↔
      (fmState env buf size = FM_NAME_IS_NOT_IN_USE ∨
       fmState env buf size = FM_NAME_IS_FILE_CLOSED)) ∧
    ((FM_VerifyDirExists env buf size e g).result = true ↔
      fmState env buf size = FM_NAME_IS_DIRECTORY) ∧
    ((FM_VerifyDirNoExist env buf size e g).result = true ↔
      fmState env buf size = FM_NAME_IS_NOT_IN_USE) ∧
    ((FM_VerifyFileExists env buf size e g).events.length =
      if (FM_VerifyFileExists env buf size e g).result then 0 else 1) ∧
    ((FM_VerifyFileClosed env buf size e g).events.length =
      if (FM_VerifyFileClosed env buf size e g).result then 0 else 1) ∧
    ((FM_VerifyFileNoExist env buf size e g).events.length =
      if (FM_VerifyFileNoExist env buf size e g).result then 0 else 1) ∧
    ((FM_VerifyFileNotOpen env buf size e g).events.length =
      if (FM_VerifyFileNotOpen env buf size e g).result then 0 else 1) ∧
    ((FM_VerifyDirExists env buf size e g).events.length =
      if (FM_VerifyDirExists env buf size e g).result then 0 else 1) ∧
    ((FM_VerifyDirNoExist env buf size e g).events.length =
      if (FM_VerifyDirNoExist env buf size e g).result then 0 else 1) := by
  rcases fmState_cases env buf size with hs | hs | hs | hs <;>
    simp [FM_VerifyFileExists, FM_VerifyFileClosed, FM_VerifyFileNoExist,
      FM_VerifyFileNotOpen, FM_VerifyDirExists, FM_VerifyDirNoExist,
      fmGetFilenameState_fst, hs, FM_NAME_IS_INVALID, FM_NAME_IS_NOT_IN_USE,
      FM_NAME_IS_FILE_OPEN, FM_NAME_IS_FILE_CLOSED, FM_NAME_IS_DIRECTORY]

/-- C5 counterexample: at the concrete directory path `/d` the
DirectoryAbsent check FM_VerifyDirNoExist fails and emits the diagnostic
base + 3 (base + FM_FNAME_ISDIR_EID_OFFSET), not base + 2 as the claim
states. -/
theorem dirNoExistOffset_c5_cex :
    fmState envDir bufDir 3 = FM_NAME_IS_DIRECTORY ∧
    (FM_VerifyDirNoExist envDir bufDir 3 100 ⟨0, 0⟩).result = false ∧
    (FM_VerifyDirNoExist envDir bufDir 3 100 ⟨0, 0⟩).events = [100 + 3] ∧
    (FM_VerifyDirNoExist envDir bufDir 3 100 ⟨0, 0⟩).events ≠ [100 + 2] :=
  ⟨by decide, by decide, by decide, by decide⟩

/-- C5 amended: for every path, FM_VerifyDirNoExist on failure emits
exactly one diagnostic at the caller-supplied base plus the fixed
offset: +0 when the classified state is Invalid, +1 when it is FileOpen
or FileClosed, and +3 (FM_FNAME_ISDIR_EID_OFFSET, not +2) when it is
Directory. -/
theorem dirNoExistOffsets_c5 (env : Env) (buf : List Char) (size : Nat)
    (e : Nat) (g : Globals) :
    (fmState env buf size = FM_NAME_IS_INVALID →
      (FM_VerifyDirNoExist env buf size e g).result = false ∧
      (FM_VerifyDirNoExist env buf size e g).events =
        [e + FM_FNAME_INVALID_EID_OFFSET]) ∧
    ((fmState env buf size = FM_NAME_IS_FILE_OPEN ∨
      fmState env buf size = FM_NAME_IS_FILE_CLOSED) →
      (FM_VerifyDirNoExist env buf size e g).result = false ∧
      (FM_VerifyDirNoExist env buf size e g).events =
        [e + FM_FNAME_DNE_EID_OFFSET]) ∧
    (fmState env buf size = FM_NAME_IS_DIRECTORY →
      (FM_VerifyDirNoExist env buf size e g).result = false ∧
      (FM_VerifyDirNoExist env buf size e g).events =
        [e + FM_FNAME_ISDIR_EID_OFFSET]) := by
  rcases fmState_cases env buf size with hs | hs | hs | hs <;>
    simp [FM_VerifyDirNoExist, fmGetFilenameState_fst, hs,
      FM_NAME_IS_INVALID, FM_NAME_IS_NOT_IN_USE, FM_NAME_IS_FILE_OPEN,
      FM_NAME_IS_FILE_CLOSED, FM_NAME_IS_DIRECTORY,
      FM_FNAME_INVALID_EID_OFFSET, FM_FNAME_DNE_EID_OFFSET,
      FM_FNAME_ISDIR_EID_OFFSET]

/-- Witness for the amended C5 at the concrete directory path. -/
theorem dirNoExistOffsets_c5_witness :
    fmState envDir bufDir 3 = FM_NAME_IS_DIRECTORY ∧
    ((FM_VerifyDirNoExist envDir bufDir 3 100 ⟨0, 0⟩).result = false ∧
      (FM_VerifyDirNoExist envDir bufDir 3 100 ⟨0, 0⟩).events =
        [100 + FM_FNAME_ISDIR_EID_OFFSET]) :=
  ⟨by decide,
    (dirNoExistOffsets_c5 envDir bufDir 3 100 ⟨0, 0⟩).2.2 (by decide)⟩

lemma stringLengthAux_term (buf : List Char) :
    ∀ fuel i, stringLengthAux buf i fuel < i + fuel →
      bufGet buf (stringLengthAux buf i fuel) = nulChar := by
  intro fuel
  induction fuel with
  | zero =>
    intro i h
    simp [stringLengthAux] at h
  | succ n ih =>
    intro i h
    by_cases hc : bufGet buf i = nulChar
    · simp [stringLengthAux, hc]
    · have h' : stringLengthAux buf (i + 1) n < i + 1 + n := by
        simp only [stringLengthAux, if_neg hc] at h
        omega
      simpa [stringLengthAux, hc] using ih (i + 1) h'

lemma stringLength_term (buf : List Char) (size : Nat)
    (h : stringLength buf size < size) : bufGet buf (stringLength buf size) = nulChar := by
  have := stringLengthAux_term buf size 0
  simp only [Nat.zero_add] at this
  exact this h

lemma bufGet_set_self : ∀ (buf : List Char) (i : Nat) (c : Char),
    i < buf.length → bufGet (buf.set i c) i = c := by
  intro buf
  induction buf with
  | nil => intro i c h; simp at h
  | cons a l ih =>
    intro i c h
    cases i with
    | zero => rfl
    | succ n =>
      simp only [List.set, bufGet, List.getD_cons_succ]
      exact ih n c (by simpa using h)

lemma bufGet_set_ne : ∀ (buf : List Char) (i j : Nat) (c : Char),
    i ≠ j → bufGet (buf.set i c) j = bufGet buf j := by
  intro buf
  induction buf with
  | nil => intro i j c _; cases i <;> rfl
  | cons a l ih =>
    intro i j c hij
    cases i with
    | zero =>
      cases j with
      | zero => exact absurd rfl hij
      | succ m => rfl
    | succ n =>
      cases j with
      | zero => rfl
      | succ m =>
        simp only [List.set, bufGet, List.getD_cons_succ]
        exact ih n m c (by omega)

lemma fmState_ne_invalid (env : Env) (buf : List Char) (size : Nat)
    (h : fmState env buf size ≠ FM_NAME_IS_INVALID) :
    0 < stringLength buf size ∧ stringLength buf size < size := by
  by_contra hc
  apply h
  have hneg : ¬ (0 < stringLength buf size ∧ stringLength buf size < size) := hc
  simp [fmState, FM_GetFilenameState, hneg]

/-- C6: on every fail path the diagnostic sees a terminated buffer.  When
the classified state is Invalid every check overwrites index
BufferSize-1 with NUL; any other state means classification found a
terminator at an offset strictly between 0 and BufferSize and the checks
leave the buffer untouched; hence after any failing check the reported
buffer holds a NUL below BufferSize. -/
theorem failPathTerminated_c6 (env : Env) (buf : List Char) (size : Nat)
    (e : Nat) (g : Globals) (hpos : 0 < size) (hlen : size ≤ buf.length) :
    (fmState env buf size = FM_NAME_IS_INVALID →
      (FM_VerifyFileClosed env buf size e g).buf = buf.set (size - 1) nulChar ∧
      (FM_VerifyFileExists env buf size e g).buf = buf.set (size - 1) nulChar ∧
      (FM_VerifyFileNoExist env buf size e g).buf = buf.set (size - 1) nulChar ∧
      (FM_VerifyFileNotOpen env buf size e g).buf = buf.set (size - 1) nulChar ∧
      (FM_VerifyDirExists env buf size e g).buf = buf.set (size - 1) nulChar ∧
      (FM_VerifyDirNoExist env buf size e g).buf = buf.set (size - 1) nulChar) ∧
    (fmState env buf size ≠ FM_NAME_IS_INVALID →
      (0 < stringLength buf size ∧ stringLength buf size < size ∧
        bufGet buf (stringLength buf size) = nulChar) ∧
      (FM_VerifyFileClosed env buf size e g).buf = buf ∧
      (FM_VerifyFileExists env buf size e g).buf = buf ∧
      (FM_VerifyFileNoExist env buf size e g).buf = buf ∧
      (FM_VerifyFileNotOpen env buf size e g).buf = buf ∧
      (FM_VerifyDirExists env buf size e g).buf = buf ∧
      (FM_VerifyDirNoExist env buf size e g).buf = buf) ∧
    ((FM_VerifyFileClosed env buf size e g).result = false →
      ∃ i, i < size ∧ bufGet (FM_VerifyFileClosed env buf size e g).buf i = nulChar) ∧
    ((FM_VerifyFileExists env buf size e g).result = false →
      ∃ i, i < size ∧ bufGet (FM_VerifyFileExists env buf size e g).buf i = nulChar) ∧
    ((FM_VerifyFileNoExist env buf size e g).result = false →
      ∃ i, i < size ∧ bufGet (FM_VerifyFileNoExist env buf size e g).buf i = nulChar) ∧
    ((FM_VerifyFileNotOpen env buf size e g).result = false →
      ∃ i, i < size ∧ bufGet (FM_VerifyFileNotOpen env buf size e g).buf i = nulChar) ∧
    ((FM_VerifyDirExists env buf size e g).result = false →
      ∃ i, i < size ∧ bufGet (FM_VerifyDirExists env buf size e g).buf i = nulChar) ∧
    ((FM_VerifyDirNoExist env buf size e g).result = false →
      ∃ i, i < size ∧ bufGet (FM_VerifyDirNoExist env buf size e g).buf i = nulChar) := by
  by_cases hs : fmState env buf size = FM_NAME_IS_INVALID
  · have hbuf : ∀ r : CheckResult,
        r.buf = buf.set (size - 1) nulChar →
        ∃ i, i < size ∧ bufGet r.buf i = nulChar := by
      intro r hr
      exact ⟨size - 1, by omega, by
        rw [hr]; exact bufGet_set_self buf (size - 1) nulChar (by omega)⟩
    refine ⟨fun _ => ?_, fun hne => absurd hs hne, ?_, ?_, ?_, ?_, ?_, ?_⟩ <;>
      first
       | · refine ⟨?_, ?_, ?_, ?_, ?_, ?_⟩ <;>
           simp [FM_VerifyFileClosed, FM_VerifyFileExists, FM_VerifyFileNoExist,
             FM_VerifyFileNotOpen, FM_VerifyDirExists, FM_VerifyDirNoExist,
             fmGetFilenameState_fst, hs]
       | · intro _
           apply hbuf
           simp [FM_VerifyFileClosed, FM_VerifyFileExists, FM_VerifyFileNoExist,
             FM_VerifyFileNotOpen, FM_VerifyDirExists, FM_VerifyDirNoExist,
             fmGetFilenameState_fst, hs]
  · obtain ⟨h0, hlt⟩ := fmState_ne_invalid env buf size hs
    have hterm : bufGet buf (stringLength buf size) = nulChar :=
      stringLength_term buf size hlt
    have hbufeq :
        (FM_VerifyFileClosed env buf size e g).buf = buf ∧
        (FM_VerifyFileExists env buf size e g).buf = buf ∧
        (FM_VerifyFileNoExist env buf size e g).buf = buf ∧
        (FM_VerifyFileNotOpen env buf size e g).buf = buf ∧
        (FM_VerifyDirExists env buf size e g).buf = buf ∧
        (FM_VerifyDirNoExist env buf size e g).buf = buf := by
      rcases fmState_cases env buf size with h | h | h | h <;>
        [exact absurd h hs; skip; skip; skip] <;>
        simp [FM_VerifyFileClosed, FM_VerifyFileExists, FM_VerifyFileNoExist,
          FM_VerifyFileNotOpen, FM_VerifyDirExists, FM_VerifyDirNoExist,
          fmGetFilenameState_fst, h, FM_NAME_IS_INVALID, FM_NAME_IS_NOT_IN_USE,
          FM_NAME_IS_FILE_OPEN, FM_NAME_IS_FILE_CLOSED, FM_NAME_IS_DIRECTORY]
    obtain ⟨b1, b2, b3, b4, b5, b6⟩ := hbufeq
    refine ⟨fun hinv => absurd hinv hs,
      fun _ => ⟨⟨h0, hlt, hterm⟩, b1, b2, b3, b4, b5, b6⟩,
      fun _ => ⟨stringLength buf size, hlt, by rw [b1]; exact hterm⟩,
      fun _ => ⟨stringLength buf size, hlt, by rw [b2]; exact hterm⟩,
      fun _ => ⟨stringLength buf size, hlt, by rw [b3]; exact hterm⟩,
      fun _ => ⟨stringLength buf size, hlt, by rw [b4]; exact hterm⟩,
      fun _ => ⟨stringLength buf size, hlt, by rw [b5]; exact hterm⟩,
      fun _ => ⟨stringLength buf size, hlt, by rw [b6]; exact hterm⟩⟩

/-- Witness for C6 at a concrete unterminated buffer. -/
theorem failPathTerminated_c6_witness :
    0 < 4 ∧ 4 ≤ bufInvalid.length ∧
    ((fmState envAbsent bufInvalid 4 = FM_NAME_IS_INVALID →
      (FM_VerifyFileClosed envAbsent bufInvalid 4 60 ⟨0, 0⟩).buf =
        bufInvalid.set 3 nulChar ∧
      (FM_VerifyFileExists envAbsent bufInvalid 4 60 ⟨0, 0⟩).buf =
        bufInvalid.set 3 nulChar ∧
      (FM_VerifyFileNoExist envAbsent bufInvalid 4 60 ⟨0, 0⟩).buf =
        bufInvalid.set 3 nulChar ∧
      (FM_VerifyFileNotOpen envAbsent bufInvalid 4 60 ⟨0, 0⟩).buf =
        bufInvalid.set 3 nulChar ∧
      (FM_VerifyDirExists envAbsent bufInvalid 4 60 ⟨0, 0⟩).buf =
        bufInvalid.set 3 nulChar ∧
      (FM_VerifyDirNoExist envAbsent bufInvalid 4 60 ⟨0, 0⟩).buf =
        bufInvalid.set 3 nulChar) ∧
    (fmState envAbsent bufInvalid 4 ≠ FM_NAME_IS_INVALID →
      (0 < stringLength bufInvalid 4 ∧ stringLength bufInvalid 4 < 4 ∧
        bufGet bufInvalid (stringLength bufInvalid 4) = nulChar) ∧
      (FM_VerifyFileClosed envAbsent bufInvalid 4 60 ⟨0, 0⟩).buf = bufInvalid ∧
      (FM_VerifyFileExists envAbsent bufInvalid 4 60 ⟨0, 0⟩).buf = bufInvalid ∧
      (FM_VerifyFileNoExist envAbsent bufInvalid 4 60 ⟨0, 0⟩).buf = bufInvalid ∧
      (FM_VerifyFileNotOpen envAbsent bufInvalid 4 60 ⟨0, 0⟩).buf = bufInvalid ∧
      (FM_VerifyDirExists envAbsent bufInvalid 4 60 ⟨0, 0⟩).buf = bufInvalid ∧
      (FM_VerifyDirNoExist envAbsent bufInvalid 4 60 ⟨0, 0⟩).buf = bufInvalid) ∧
    ((FM_VerifyFileClosed envAbsent bufInvalid 4 60 ⟨0, 0⟩).result = false →
      ∃ i, i < 4 ∧
        bufGet (FM_VerifyFileClosed envAbsent bufInvalid 4 60 ⟨0, 0⟩).buf i = nulChar) ∧
    ((FM_VerifyFileExists envAbsent bufInvalid 4 60 ⟨0, 0⟩).result = false →
      ∃ i, i < 4 ∧
        bufGet (FM_VerifyFileExists envAbsent bufInvalid 4 60 ⟨0, 0⟩).buf i = nulChar) ∧
    ((FM_VerifyFileNoExist envAbsent bufInvalid 4 60 ⟨0, 0⟩).result = false →
      ∃ i, i < 4 ∧
        bufGet (FM_VerifyFileNoExist envAbsent bufInvalid 4 60 ⟨0, 0⟩).buf i = nulChar) ∧
    ((FM_VerifyFileNotOpen envAbsent bufInvalid 4 60 ⟨0, 0⟩).result = false →
      ∃ i, i < 4 ∧
        bufGet (FM_VerifyFileNotOpen envAbsent bufInvalid 4 60 ⟨0, 0⟩).buf i = nulChar) ∧
    ((FM_VerifyDirExists envAbsent bufInvalid 4 60 ⟨0, 0⟩).result = false →
      ∃ i, i < 4 ∧
        bufGet (FM_VerifyDirExists envAbsent bufInvalid 4 60 ⟨0, 0⟩).buf i = nulChar) ∧
    ((FM_VerifyDirNoExist envAbsent bufInvalid 4 60 ⟨0, 0⟩).result = false →
      ∃ i, i < 4 ∧
        bufGet (FM_VerifyDirNoExist envAbsent bufInvalid 4 60 ⟨0, 0⟩).buf i = nulChar)) :=
  ⟨by decide, by decide,
    failPathTerminated_c6 envAbsent bufInvalid 4 60 ⟨0, 0⟩ (by decide) (by decide)⟩

lemma runAttempts_charact (q e : Nat) (st : ChildState)
    (hq : 0 < q) (hq' : q < 256)
    (hsem : st.childSemaphore ≠ FM_CHILD_SEM_INVALID)
    (hcount : st.childQueueCount = 0) (hwi : st.childWriteIndex = 0) :
    ∀ n, (runAttempts q e st n).childSemaphore = st.childSemaphore ∧
         (runAttempts q e st n).childQueueCount = min n q ∧
         (runAttempts q e st n).childWriteIndex = min n q % q := by
  intro n
  induction n with
  | zero =>
    refine ⟨rfl, ?_, ?_⟩ <;> simp [runAttempts, hcount, hwi]
  | succ n ih =>
    obtain ⟨ihs, ihc, ihw⟩ := ih
    by_cases hlt : n < q
    · have hmn : min n q = n := by omega
      have hcn : (runAttempts q e st n).childQueueCount = n := by rw [ihc, hmn]
      have hwn : (runAttempts q e st n).childWriteIndex = n := by
        rw [ihw, hmn, Nat.mod_eq_of_lt hlt]
      have hsem' : ¬ (runAttempts q e st n).childSemaphore = FM_CHILD_SEM_INVALID := by
        rw [ihs]; exact hsem
      have h2 : ¬ (runAttempts q e st n).childQueueCount = q := by
        rw [hcn]; omega
      have h3 : ¬ ((runAttempts q e st n).childQueueCount > q ∨
          (runAttempts q e st n).childWriteIndex ≥ q) := by
        rw [hcn, hwn]; push_neg; omega
      have hv : FM_VerifyChildTask q e (runAttempts q e st n) =
          (true, [], { runAttempts q e st n with
            childQueue := (runAttempts q e st n).childQueue.set
              (runAttempts q e st n).childWriteIndex 0 }) := by
        simp [FM_VerifyChildTask, hsem', h2, h3]
      have hstep : runAttempts q e st (n + 1) =
          FM_InvokeChildTask q { runAttempts q e st n with
            childQueue := (runAttempts q e st n).childQueue.set
              (runAttempts q e st n).childWriteIndex 0 } := by
        simp [runAttempts, enqueueAttempt, hv]
      rw [hstep]
      have hmn1 : min (n + 1) q = n + 1 := by omega
      refine ⟨by simp [FM_InvokeChildTask, ihs], ?_, ?_⟩
      · simp only [FM_InvokeChildTask]
        simp [hcn, hmn1, Nat.mod_eq_of_lt (show n + 1 < 256 by omega)]
      · simp only [FM_InvokeChildTask]
        simp only [hwn, hmn1]
        rw [Nat.mod_eq_of_lt (show n + 1 < 256 by omega)]
        by_cases hq1 : n + 1 = q
        · simp [hq1]
        · have : ¬ (n + 1 ≥ q) := by omega
          simp [this, Nat.mod_eq_of_lt (show n + 1 < q by omega)]
    · have hmn : min n q = q := by omega
      have hcn : (runAttempts q e st n).childQueueCount = q := by rw [ihc, hmn]
      have hsem' : ¬ (runAttempts q e st n).childSemaphore = FM_CHILD_SEM_INVALID := by
        rw [ihs]; exact hsem
      have hv : FM_VerifyChildTask q e (runAttempts q e st n) =
          (false, [e + FM_CHILD_Q_FULL_EID_OFFSET], runAttempts q e st n) := by
        simp [FM_VerifyChildTask, hsem', hcn]
      have hstep : runAttempts q e st (n + 1) = runAttempts q e st n := by
        simp [runAttempts, enqueueAttempt, hv]
      rw [hstep]
      have hmn1 : min (n + 1) q = q := by omega
      exact ⟨ihs, by rw [ihc, hmn, hmn1], by rw [ihw, hmn, hmn1]⟩

/-- C3: under the producer protocol (FM_VerifyChildTask before each
FM_InvokeChildTask, enqueueing only on a TRUE verify result), starting
from an empty queue with a live semaphore, ChildQueueCount never exceeds
the queue depth, and the enqueue attempt after the first `q` attempts
(attempt number q+1 with no intervening dequeue) fails with exactly the
`full` diagnostic (base + FM_CHILD_Q_FULL_EID_OFFSET) and leaves the
state unchanged. -/
theorem queueCapacity_c3 (q e : Nat) (st : ChildState) (n : Nat)
    (hq : 0 < q) (hq' : q < 256)
    (hsem : st.childSemaphore ≠ FM_CHILD_SEM_INVALID)
    (hcount : st.childQueueCount = 0) (hwi : st.childWriteIndex = 0) :
    (runAttempts q e st n).childQueueCount ≤ q ∧
    enqueueAttempt q e (runAttempts q e st q) =
      (false, [e + FM_CHILD_Q_FULL_EID_OFFSET], runAttempts q e st q) := by
  have hn := runAttempts_charact q e st hq hq' hsem hcount hwi n
  have hqq := runAttempts_charact q e st hq hq' hsem hcount hwi q
  obtain ⟨hqs, hqc, _⟩ := hqq
  have hsem' : ¬ (runAttempts q e st q).childSemaphore = FM_CHILD_SEM_INVALID := by
    rw [hqs]; exact hsem
  have hcq : (runAttempts q e st q).childQueueCount = q := by
    rw [hqc]; omega
  constructor
  · rw [hn.2.1]; omega
  · have hv : FM_VerifyChildTask q e (runAttempts q e st q) =
        (false, [e + FM_CHILD_Q_FULL_EID_OFFSET], runAttempts q e st q) := by
      simp [FM_VerifyChildTask, hsem', hcq]
    simp [enqueueAttempt, hv]

/-- Witness for C3 at a concrete queue of depth 3 driven for 7 attempts. -/
theorem queueCapacity_c3_witness :
    (0 < 3 ∧ 3 < 256 ∧
      (⟨1, 0, 0, [0, 0, 0]⟩ : ChildState).childSemaphore ≠ FM_CHILD_SEM_INVALID) ∧
    ((runAttempts 3 20 ⟨1, 0, 0, [0, 0, 0]⟩ 7).childQueueCount ≤ 3 ∧
      enqueueAttempt 3 20 (runAttempts 3 20 ⟨1, 0, 0, [0, 0, 0]⟩ 3) =
        (false, [20 + FM_CHILD_Q_FULL_EID_OFFSET],
          runAttempts 3 20 ⟨1, 0, 0, [0, 0, 0]⟩ 3)) :=
  ⟨⟨by decide, by decide, by decide⟩,
    queueCapacity_c3 3 20 ⟨1, 0, 0, [0, 0, 0]⟩ 7
      (by decide) (by decide) (by decide) (by decide) (by decide)⟩

lemma slash_ne_nul : ('/' : Char) ≠ nulChar := by decide

lemma strlen_set_sep : ∀ (buf : List Char),
    strlen buf + 1 < buf.length →
    strlen ((buf.set (strlen buf) '/').set (strlen buf + 1) nulChar) =
      strlen buf + 1 := by
  intro buf
  induction buf with
  | nil => intro h; simp at h
  | cons a l ih =>
    intro h
    by_cases ha : a = nulChar
    · have hs : strlen (a :: l) = 0 := by simp [strlen, ha]
      rw [hs] at h ⊢
      cases l with
      | nil => simp at h
      | cons b m =>
        show strlen (((a :: b :: m).set 0 '/').set 1 nulChar) = 1
        simp only [List.set_cons_zero, List.set_cons_succ]
        show strlen ('/' :: (b :: m).set 0 nulChar) = 1
        simp only [List.set_cons_zero]
        simp [strlen, slash_ne_nul]
    · have hs : strlen (a :: l) = strlen l + 1 := by simp [strlen, ha]
      rw [hs] at h ⊢
      simp only [List.set_cons_succ]
      have hl : strlen l + 1 < l.length := by
        simp only [List.length_cons] at h
        omega
      simp [strlen, ha, ih hl]

lemma appendPathSep_noop (buf : List Char) (size : Nat)
    (h : ¬ bufGet buf (strlen buf - 1) ≠ '/') :
    FM_AppendPathSep buf size = buf := by
  simp only [FM_AppendPathSep]
  rw [if_neg h]

lemma appendPathSep_noroom (buf : List Char) (size : Nat)
    (h : ¬ strlen buf < size - 1) :
    FM_AppendPathSep buf size = buf := by
  simp only [FM_AppendPathSep]
  by_cases hA : bufGet buf (strlen buf - 1) ≠ '/'
  · rw [if_pos hA, if_neg h]
  · rw [if_neg hA]

lemma appendPathSep_app (buf : List Char) (size : Nat)
    (h1 : bufGet buf (strlen buf - 1) ≠ '/') (h2 : strlen buf < size - 1) :
    FM_AppendPathSep buf size =
      (buf.set (strlen buf) '/').set (strlen buf + 1) nulChar := by
  simp only [FM_AppendPathSep]
  rw [if_pos h1, if_pos h2]

/-- C9: for every non-empty directory string terminated within its
buffer (the stated precondition of FM_AppendPathSep), applying
FM_AppendPathSep twice yields the same buffer contents as applying it
once; after one application the string ends with a slash whenever
appending still leaves room for the terminator within BufferSize, and
the buffer is unchanged otherwise. -/
theorem appendPathSep_c9 (buf : List Char) (size : Nat)
    (h1 : 0 < strlen buf) (h2 : strlen buf < size) (h3 : size ≤ buf.length) :
    FM_AppendPathSep (FM_AppendPathSep buf size) size = FM_AppendPathSep buf size ∧
    (strlen buf < size - 1 →
      bufGet (FM_AppendPathSep buf size)
        (strlen (FM_AppendPathSep buf size) - 1) = '/') ∧
    (¬ strlen buf < size - 1 → FM_AppendPathSep buf size = buf) := by
  by_cases hsl : bufGet buf (strlen buf - 1) ≠ '/'
  · by_cases hroom : strlen buf < size - 1
    · have hr : FM_AppendPathSep buf size =
          (buf.set (strlen buf) '/').set (strlen buf + 1) nulChar :=
        appendPathSep_app buf size hsl hroom
      have hlen1 : strlen buf + 1 < buf.length := by omega
      have hstr : strlen (FM_AppendPathSep buf size) = strlen buf + 1 := by
        rw [hr]; exact strlen_set_sep buf hlen1
      have hget : bufGet (FM_AppendPathSep buf size) (strlen buf) = '/' := by
        rw [hr, bufGet_set_ne _ _ _ _ (by omega)]
        exact bufGet_set_self buf (strlen buf) '/' (by omega)
      have hcond : ¬ bufGet (FM_AppendPathSep buf size)
          (strlen (FM_AppendPathSep buf size) - 1) ≠ '/' := by
        rw [hstr, Nat.add_sub_cancel]
        simp [hget]
      refine ⟨appendPathSep_noop (FM_AppendPathSep buf size) size hcond,
        fun _ => ?_, fun hc => absurd hroom hc⟩
      rw [hstr, Nat.add_sub_cancel]
      exact hget
    · have hr : FM_AppendPathSep buf size = buf := appendPathSep_noroom buf size hroom
      refine ⟨?_, fun hc => absurd hc hroom, fun _ => hr⟩
      rw [hr, hr]
  · have hr : FM_AppendPathSep buf size = buf := appendPathSep_noop buf size hsl
    push_neg at hsl
    refine ⟨?_, fun _ => ?_, fun _ => hr⟩
    · rw [hr, hr]
    · rw [hr]; exact hsl

/-- Witness for C9 at the concrete directory buffer `/a` of capacity 4. -/
theorem appendPathSep_c9_witness :
    (0 < strlen bufSep ∧ strlen bufSep < 4 ∧ 4 ≤ bufSep.length) ∧
    (FM_AppendPathSep (FM_AppendPathSep bufSep 4) 4 = FM_AppendPathSep bufSep 4 ∧
      (strlen bufSep < 4 - 1 →
        bufGet (FM_AppendPathSep bufSep 4)
          (strlen (FM_AppendPathSep bufSep 4) - 1) = '/') ∧
      (¬ strlen bufSep < 4 - 1 → FM_AppendPathSep bufSep 4 = bufSep)) :=
  ⟨⟨by decide, by decide, by decide⟩,
    appendPathSep_c9 bufSep 4 (by decide) (by decide) (by decide)⟩

lemma loadOpenFileData_fold_count (env : Env) (nullArg : Bool) :
    ∀ (objs : List OsObject) (acc : Nat × List (Nat × OpenFilesEntry)),
      (objs.foldl (fun a obj => LoadOpenFileData env nullArg obj a) acc).1 =
        acc.1 + objs.countP (fun o => o.isStream) := by
  intro objs
  induction objs with
  | nil => intro acc; simp
  | cons o rest ih =>
    intro acc
    rw [List.foldl_cons, ih (LoadOpenFileData env nullArg o acc)]
    by_cases h : o.isStream
    · simp [LoadOpenFileData, h, List.countP_cons]
      omega
    · simp [LoadOpenFileData, h, List.countP_cons]

lemma loadOpenFileData_fold_null (env : Env) :
    ∀ (objs : List OsObject) (acc : Nat × List (Nat × OpenFilesEntry)),
      (objs.foldl (fun a obj => LoadOpenFileData env true obj a) acc).2 = acc.2 := by
  intro objs
  induction objs with
  | nil => intro acc; rfl
  | cons o rest ih =>
    intro acc
    rw [List.foldl_cons, ih (LoadOpenFileData env true o acc)]
    by_cases h : o.isStream <;> simp [LoadOpenFileData, h]

/-- C10: FM_GetOpenFilesData returns the number of OS objects identified
as stream handles — the count is bumped for every stream handle even
when OS_FDGetInfo fails or the output pointer is NULL.  With a NULL
argument it returns the open-stream count while writing no records, and
at a concrete environment holding one stream whose info query fails the
returned count strictly exceeds the number of records populated. -/
theorem getOpenFilesData_c10 (env : Env) :
    (FM_GetOpenFilesData env true).1 = env.objects.countP (fun o => o.isStream) ∧
    (FM_GetOpenFilesData env false).1 = env.objects.countP (fun o => o.isStream) ∧
    (FM_GetOpenFilesData env true).2 = [] ∧
    ((FM_GetOpenFilesData envFdFail false).1 = 1 ∧
      (FM_GetOpenFilesData envFdFail false).2 = [] ∧
      (FM_GetOpenFilesData envFdFail false).2.length <
        (FM_GetOpenFilesData envFdFail false).1) := by
  refine ⟨?_, ?_, ?_, by decide, by decide, by decide⟩
  · have := loadOpenFileData_fold_count env true env.objects (0, [])
    simpa [FM_GetOpenFilesData] using this
  · have := loadOpenFileData_fold_count env false env.objects (0, [])
    simpa [FM_GetOpenFilesData] using this
  · exact loadOpenFileData_fold_null env env.objects (0, [])

end FM
